import Mathlib

/-!
Verification development for the purlinfo CLI: a shallow embedding of the
package-resolution service (src/ecosystems.go), the normalized data model
(the pointer-based PackageInfo declaration used by the renderer and all
tests), and the orchestration and rendering functions of main.go
(runWithService, printOutput, printJSONOutput, printHumanReadableOutput,
printLicenses, printOptionalField), together with theorems settling the
specification claims about them.

Conventions of the embedding:
- Go machine strings are Lean String; Go byte-level operations go through an
  explicit UTF-8 encoder.
- A Go nil-able slice or pointer is Option: none models nil, some models a
  present (possibly empty) value.
- The HTTP exchange is explicit: the function under test receives a
  transport of type HttpRequest to Except String HttpResponse and returns
  the list of requests it issued alongside its result, so that request
  construction and request count are provable facts.
- JSON bodies are modelled as an Option Json: none is a body that is not
  well-formed JSON; decoding follows the semantics of Go encoding/json for
  the concrete target types used by the code: unknown object keys are
  ignored, a missing key or JSON null leaves the zero value, null decodes
  into a slice or pointer as nil, and a type mismatch is a decode error.
-/

/-! ## JSON value model -/

/-- A JSON document, as produced by the Go encoding/json package. -/
inductive Json where
  | null
  | bool (b : Bool)
  | num (n : Int)
  | str (s : String)
  | arr (elems : List Json)
  | obj (fields : List (String × Json))

/-- Field lookup in a JSON object. Go encoding/json keeps the last
occurrence of a duplicated key, so the search prefers later fields. -/
def lookupField : List (String × Json) → String → Option Json
  | [], _ => none
  | (k, v) :: rest, key =>
    match lookupField rest key with
    | some r => some r
    | none => if k = key then some v else none

/-- The name used by Go decode-error messages for each JSON value kind. -/
def jsonTypeName : Json → String
  | .null => "null"
  | .bool _ => "bool"
  | .num _ => "number"
  | .str _ => "string"
  | .arr _ => "array"
  | .obj _ => "object"

/-- Reading a field of a JSON object into a Json value, if the object has it. -/
def jsonObjGet : Json → String → Option Json
  | .obj fields, key => lookupField fields key
  | _, _ => none

/-! ## Go decoding semantics for the concrete field types of this program -/

/-- Go decoding of an object field into a plain string: a missing key or
null leaves the zero value, a string is taken, anything else errors. -/
def decodeGoString (fields : List (String × Json)) (key : String) : Except String String :=
  match lookupField fields key with
  | none => .ok ""
  | some .null => .ok ""
  | some (.str s) => .ok s
  | some v => .error ("cannot unmarshal " ++ jsonTypeName v ++ " into string field " ++ key)

/-- Go decoding of an object field into a nil-able string pointer: a missing
key or null leaves nil, a string is taken, anything else errors. -/
def decodeGoOptString (fields : List (String × Json)) (key : String) : Except String (Option String) :=
  match lookupField fields key with
  | none => .ok none
  | some .null => .ok none
  | some (.str s) => .ok (some s)
  | some v => .error ("cannot unmarshal " ++ jsonTypeName v ++ " into string pointer field " ++ key)

/-- Go decoding of one element of a []string: null leaves the zero string. -/
def decodeGoStringElem : Json → Except String String
  | .null => .ok ""
  | .str s => .ok s
  | v => .error ("cannot unmarshal " ++ jsonTypeName v ++ " into string")

/-- Go decoding of the elements of a JSON array into a []string. -/
def decodeGoStringList : List Json → Except String (List String)
  | [] => .ok []
  | x :: xs => do
      let s ← decodeGoStringElem x
      let rest ← decodeGoStringList xs
      .ok (s :: rest)

/-- Go decoding of an object field into a nil-able []string: a missing key
or null leaves the nil slice (none); a JSON array, possibly empty, gives a
present slice; anything else errors. -/
def decodeGoStringSlice (fields : List (String × Json)) (key : String) :
    Except String (Option (List String)) :=
  match lookupField fields key with
  | none => .ok none
  | some .null => .ok none
  | some (.arr elems) => (decodeGoStringList elems).map some
  | some v => .error ("cannot unmarshal " ++ jsonTypeName v ++ " into string slice field " ++ key)

/-! ## Data model -/

/-- src/ecosystems.go: the response entry type of the Ecosystems lookup API.
Only these three keys are read; any other key in the payload is ignored. -/
structure EcosystemsPackagesLookupResponse where
  name : String
  latestReleaseNumber : String
  normalizedLicenses : Option (List String)
deriving DecidableEq, Repr

/-- The normalized result record, embedded from the pointer-based PackageInfo
declaration (the one the tests, printOptionalField and printJSONOutput use):
Name, Version, Licenses []string, then nil-able Homepage, RepositoryURL,
Description, a plain Ecosystem string, and nil-able DocumentationURL. -/
structure PackageInfo where
  name : String
  version : String
  licenses : Option (List String)
  homepage : Option String
  repositoryURL : Option String
  description : Option String
  ecosystem : String
  documentationURL : Option String
deriving DecidableEq, Repr

/-- The purl value handed in by the external packageurl library: the program
reads only its type component and its canonical string form. -/
structure PackageURL where
  typ : String
  canonical : String
deriving DecidableEq, Repr

/-- The caller-supplied cancellation/deadline context, carried through to the
outbound request. -/
structure Context where
  cancelled : Bool
deriving DecidableEq, Repr

/-! ## Constants from the source -/

def ecosystemsBaseURL : String := "https://packages.ecosyste.ms"

def ecosystemsAPIPath : String := "/api/v1/packages/lookup"

def httpMethodGet : String := "GET"

def cliVersion : String := "0.1.0-dev"

def exitSuccess : Nat := 0

def exitInvalidArgs : Nat := 1

def exitInvalidPurl : Nat := 2

def exitRuntimeError : Nat := 3

/-! ## Errors of the service layer

The Go code distinguishes failures by sentinel wrapping (ErrPackageNotFound,
ErrInvalidResponse) and by distinct message shapes; each return site of
GetPackageInfo maps to one constructor here. -/

inductive ServiceError where
  | packageNotFound (detail : String)
  | invalidResponse (cause : String)
  | rateLimited
  | serviceUnavailable (status : Nat)
  | apiError (status : Nat)
  | createRequestFailed (cause : String)
  | httpRequestFailed (cause : String)
deriving DecidableEq, Repr

/-- The rendered error text, as fmt.Errorf produces it for each return site. -/
def ServiceError.message : ServiceError → String
  | .packageNotFound d => "package not found: " ++ d
  | .invalidResponse c => "invalid API response: " ++ c
  | .rateLimited => "rate limited by API: HTTP 429"
  | .serviceUnavailable s => "API service unavailable: HTTP " ++ toString s
  | .apiError s => "API error: HTTP " ++ toString s
  | .createRequestFailed c => "failed to create HTTP request: " ++ c
  | .httpRequestFailed c => "failed to make HTTP request: " ++ c

/-- errors.Is(err, ErrPackageNotFound): the NotFound failure category. -/
def isPackageNotFound : Except ServiceError PackageInfo → Bool
  | .error (.packageNotFound _) => true
  | _ => false

/-- errors.Is(err, ErrInvalidResponse): the InvalidResponse failure category. -/
def isInvalidResponse : Except ServiceError PackageInfo → Bool
  | .error (.invalidResponse _) => true
  | _ => false

/-! ## url.QueryEscape (Go net/url, the external escaping collaborator) -/

/-- UTF-8 byte sequence of a character, as Go strings store it. -/
def utf8Bytes (c : Char) : List Nat :=
  let n := c.toNat
  if n < 0x80 then [n]
  else if n < 0x800 then [0xC0 + n / 0x40, 0x80 + n % 0x40]
  else if n < 0x10000 then [0xE0 + n / 0x1000, 0x80 + (n / 0x40) % 0x40, 0x80 + n % 0x40]
  else [0xF0 + n / 0x40000, 0x80 + (n / 0x1000) % 0x40, 0x80 + (n / 0x40) % 0x40, 0x80 + n % 0x40]

/-- Upper-case hexadecimal digit, as Go percent-encoding emits it. -/
def upperHexDigit (n : Nat) : Char :=
  if n < 10 then Char.ofNat (48 + n) else Char.ofNat (55 + n)

/-- Go url.QueryEscape treatment of one byte: alphanumerics and -_.~ pass
through, a space becomes a plus sign, every other byte is percent-encoded. -/
def escapeQueryByte (b : Nat) : String :=
  if (48 ≤ b ∧ b ≤ 57) ∨ (65 ≤ b ∧ b ≤ 90) ∨ (97 ≤ b ∧ b ≤ 122)
      ∨ b = 45 ∨ b = 95 ∨ b = 46 ∨ b = 126 then
    String.singleton (Char.ofNat b)
  else if b = 32 then "+"
  else
    "%" ++ String.singleton (upperHexDigit (b / 16)) ++ String.singleton (upperHexDigit (b % 16))

/-- Go url.QueryEscape over the UTF-8 bytes of the string. -/
def queryEscape (s : String) : String :=
  String.join ((s.data.flatMap utf8Bytes).map escapeQueryByte)

/-! ## HTTP exchange model -/

/-- An outbound HTTP request: method, full URL, the caller context it is
bound to, and the optional identification header (nil when no header is
set on the request). -/
structure HttpRequest where
  method : String
  url : String
  ctx : Context
  identificationHeader : Option String
deriving DecidableEq, Repr

/-- An HTTP response: the status code and the body, given as the JSON value
the body parses to, or none when the body is not well-formed JSON. -/
structure HttpResponse where
  statusCode : Nat
  body : Option Json

/-- src/ecosystems.go: EcosystemsService carries the configured base URL;
the HTTP client is passed to the call as the transport function. -/
structure EcosystemsService where
  baseURL : String
deriving DecidableEq, Repr

/-- src/ecosystems.go NewEcosystemsService: default the base URL when the
option is empty. -/
def NewEcosystemsService (optsBaseURL : String) : EcosystemsService :=
  { baseURL := if optsBaseURL != "" then optsBaseURL else ecosystemsBaseURL }

/-! ## GetPackageInfo (src/ecosystems.go) -/

/-- Decoding the response body as a JSON array of lookup entries, with Go
semantics: a non-array, non-null body is a decode error; null decodes into
the slice as nil (zero entries); each array element decodes as the
three-field entry struct (an element that is null leaves a zero entry). -/
def decodeLookupEntry : Json → Except String EcosystemsPackagesLookupResponse
  | .obj fields => do
      let n ← decodeGoString fields "name"
      let v ← decodeGoString fields "latest_release_number"
      let l ← decodeGoStringSlice fields "normalized_licenses"
      .ok { name := n, latestReleaseNumber := v, normalizedLicenses := l }
  | .null => .ok { name := "", latestReleaseNumber := "", normalizedLicenses := none }
  | v => .error ("cannot unmarshal " ++ jsonTypeName v ++ " into lookup response struct")

/-- Go decoding of the elements of the top-level JSON array, one entry each. -/
def decodeLookupList : List Json → Except String (List EcosystemsPackagesLookupResponse)
  | [] => .ok []
  | x :: xs => do
      let e ← decodeLookupEntry x
      let rest ← decodeLookupList xs
      .ok (e :: rest)

def decodeLookupResults : Json → Except String (List EcosystemsPackagesLookupResponse)
  | .arr elems => decodeLookupList elems
  | .null => .ok []
  | v => .error ("cannot unmarshal " ++ jsonTypeName v ++ " into lookup response slice")

/-- src/ecosystems.go GetPackageInfo, payload phase for a 200 response:
body decoding (lines 96 to 100), the empty-result check (103 to 105) and
the mapping of the first result (108 to 117). The mapped PackageInfo sets
only Name, Version and Licenses; every other field keeps its Go zero
value. -/
def decodePayload (purl : PackageURL) (body : Option Json) : Except ServiceError PackageInfo :=
  match body with
  | none => .error (.invalidResponse "invalid character in body")
  | some j =>
    match decodeLookupResults j with
    | .error decodeErr => .error (.invalidResponse decodeErr)
    | .ok results =>
      match results with
      | [] => .error (.packageNotFound purl.canonical)
      | result :: _ =>
        .ok { name := result.name
              version := result.latestReleaseNumber
              licenses := result.normalizedLicenses
              homepage := none
              repositoryURL := none
              description := none
              ecosystem := ""
              documentationURL := none }

/-- src/ecosystems.go GetPackageInfo, the part after client.Do: the status
switch over non-200 codes (lines 82 to 93, each Go case an equality test on
the status), then the payload phase for 200. -/
def interpretResponse (purl : PackageURL) (exchange : Except String HttpResponse) :
    Except ServiceError PackageInfo :=
  match exchange with
  | .error e => .error (.httpRequestFailed e)
  | .ok response =>
    if response.statusCode ≠ 200 then
      if response.statusCode = 404 then .error (.packageNotFound "HTTP 404")
      else if response.statusCode = 429 then .error .rateLimited
      else if response.statusCode = 502 ∨ response.statusCode = 503 ∨ response.statusCode = 504 then
        .error (.serviceUnavailable response.statusCode)
      else .error (.apiError response.statusCode)
    else decodePayload purl response.body

/-- src/ecosystems.go GetPackageInfo: build the lookup URL from the base
URL, the API path and the query-escaped canonical purl, issue one GET
request bound to the caller context (no headers are set on it), and
interpret the response. Returns the issued requests alongside the result. -/
def GetPackageInfo (s : EcosystemsService) (ctx : Context) (purl : PackageURL)
    (transport : HttpRequest → Except String HttpResponse) :
    List HttpRequest × Except ServiceError PackageInfo :=
  let apiURL := s.baseURL ++ ecosystemsAPIPath ++ "?purl=" ++ queryEscape purl.canonical
  let req : HttpRequest :=
    { method := httpMethodGet, url := apiURL, ctx := ctx, identificationHeader := none }
  ([req], interpretResponse purl (transport req))

/-! ## Spec-modelled: the contact-configured resolver

The repository's own caller (createService, which passes an Email option
into EcosystemsServiceOptions) and the spec describe a resolver variant
that sends a polite-pool identification header; the implementation of that
option (the Email field and the header-setting line of GetPackageInfo) is
not present under src. It is modelled here from the spec. -/

/-- Modelled from the spec: the identification (polite-pool) header value of
the contact-configured resolver, built only when a contact string is
configured, of the form purlinfo/version (mailto:contact). The Email option
and header-setting code are missing from src; only the spec and the caller
createService describe them. -/
def identificationHeaderValue (contact : String) : Option String :=
  if contact != "" then some ("purlinfo/" ++ cliVersion ++ " (mailto:" ++ contact ++ ")")
  else none

/-- Modelled from the spec: GetPackageInfo of the contact-configured
resolver. Identical to GetPackageInfo except that the one outbound request
carries the identification header when a contact string is configured. -/
def GetPackageInfoWithContact (s : EcosystemsService) (contact : String) (ctx : Context)
    (purl : PackageURL) (transport : HttpRequest → Except String HttpResponse) :
    List HttpRequest × Except ServiceError PackageInfo :=
  let apiURL := s.baseURL ++ ecosystemsAPIPath ++ "?purl=" ++ queryEscape purl.canonical
  let req : HttpRequest :=
    { method := httpMethodGet, url := apiURL, ctx := ctx
      identificationHeader := identificationHeaderValue contact }
  ([req], interpretResponse purl (transport req))

/-! ## JSON marshalling of PackageInfo (Go encoding/json over the struct tags) -/

/-- Go marshalling of a nil-able string pointer field without omitempty:
nil becomes null, a present string becomes a JSON string. -/
def encodeOptString : Option String → Json
  | none => Json.null
  | some s => Json.str s

/-- Go marshalling of the []string licenses field: a nil slice becomes
null, a present slice becomes a JSON array of strings. -/
def encodeLicenses : Option (List String) → Json
  | none => Json.null
  | some l => Json.arr (l.map Json.str)

/-- Go json.Marshal of PackageInfo: an object with the tag names in struct
declaration order. -/
def marshalPackageInfo (info : PackageInfo) : Json :=
  Json.obj
    [ ("name", Json.str info.name)
    , ("version", Json.str info.version)
    , ("licenses", encodeLicenses info.licenses)
    , ("homepage", encodeOptString info.homepage)
    , ("repository_url", encodeOptString info.repositoryURL)
    , ("description", encodeOptString info.description)
    , ("ecosystem", Json.str info.ecosystem)
    , ("documentation_url", encodeOptString info.documentationURL) ]

/-- Go json.Unmarshal into PackageInfo: each tagged field is read with the
Go semantics for its type; a non-object document is a decode error. -/
def unmarshalPackageInfo : Json → Except String PackageInfo
  | .obj fields => do
      let name ← decodeGoString fields "name"
      let version ← decodeGoString fields "version"
      let licenses ← decodeGoStringSlice fields "licenses"
      let homepage ← decodeGoOptString fields "homepage"
      let repositoryURL ← decodeGoOptString fields "repository_url"
      let description ← decodeGoOptString fields "description"
      let ecosystem ← decodeGoString fields "ecosystem"
      let documentationURL ← decodeGoOptString fields "documentation_url"
      .ok { name := name, version := version, licenses := licenses, homepage := homepage
            repositoryURL := repositoryURL, description := description
            ecosystem := ecosystem, documentationURL := documentationURL }
  | .null => .ok { name := "", version := "", licenses := none, homepage := none
                   repositoryURL := none, description := none, ecosystem := ""
                   documentationURL := none }
  | v => .error ("cannot unmarshal " ++ jsonTypeName v ++ " into PackageInfo")

/-! ## Rendering (main.go of the purlinfo CLI) -/

/-- Go strings.Join. -/
def stringsJoin (sep : String) : List String → String
  | [] => ""
  | [x] => x
  | x :: xs => x ++ sep ++ stringsJoin sep xs

/-- Go len of a nil-able slice: nil has length zero. -/
def goSliceLen (licenses : Option (List String)) : Nat :=
  match licenses with
  | none => 0
  | some l => l.length

/-- A run of n spaces, as the fmt width specifier pads with. -/
def spaces (n : Nat) : String := String.mk (List.replicate n ' ')

/-- main.go: labelColumnWidth, chosen to match the longest label
DocumentationURL: so that all values align at the same column. -/
def labelColumnWidth : Nat := 17

/-- main.go printLicenses: the licenses line, comma-joined when the slice
is non-empty, the literal text (none) otherwise. -/
def printLicenses (licenses : Option (List String)) : String :=
  if goSliceLen licenses > 0 then
    "Licenses:        " ++ stringsJoin ", " (licenses.getD [])
  else
    "Licenses:        (none)"

/-- main.go printOptionalField: label, padding up to the label column
width, then the value when the pointer is non-nil and non-empty, the
literal text (none) otherwise. -/
def printOptionalField (label : String) (value : Option String) : String :=
  let padding := labelColumnWidth - label.length
  match value with
  | some v => if v != "" then label ++ spaces padding ++ v else label ++ spaces padding ++ "(none)"
  | none => label ++ spaces padding ++ "(none)"

/-- main.go printHumanReadableOutput: the eight stdout lines in order, and
the returned error, which is nil unconditionally (Fprintf results are
discarded). -/
def printHumanReadableOutput (info : PackageInfo) : List String × Option String :=
  ( [ "Name:            " ++ info.name
    , "Version:         " ++ info.version
    , "Ecosystem:       " ++ info.ecosystem
    , printLicenses info.licenses
    , printOptionalField "Description:" info.description
    , printOptionalField "Homepage:" info.homepage
    , printOptionalField "RepositoryURL:" info.repositoryURL
    , printOptionalField "DocumentationURL:" info.documentationURL ]
  , none )

/-- One chunk of primary output: a human-readable text line, or the
structured JSON document the encoder writes. -/
inductive OutputChunk where
  | text (line : String)
  | jsonDoc (doc : Json)

/-- main.go printJSONOutput: encode the PackageInfo to stdout; the encoder
fails only when the write fails, modelled by the writeOk flag. -/
def printJSONOutput (info : PackageInfo) (writeOk : Bool) : List OutputChunk × Option String :=
  if writeOk then ([OutputChunk.jsonDoc (marshalPackageInfo info)], none)
  else ([], some "failed to encode JSON: write failure")

/-- main.go printOutput: structured mode when the JSON selector is set,
human-readable mode otherwise. -/
def printOutput (info : PackageInfo) (outputJSON : Bool) (writeOk : Bool) :
    List OutputChunk × Option String :=
  if outputJSON then printJSONOutput info writeOk
  else ((printHumanReadableOutput info).1.map OutputChunk.text, (printHumanReadableOutput info).2)

/-! ## Orchestrator (main.go runWithService) -/

/-- The observable outcome of one runWithService invocation: the process
outcome code, the stderr lines, and the stdout chunks. -/
structure RunResult where
  exitCode : Nat
  stderr : List String
  stdout : List OutputChunk

/-- main.go runWithService: derive a fresh (non-cancelled) timeout-bounded
context, invoke the service, and on failure print the verbose or terse
diagnostic and report the runtime-error outcome; on success render with
printOutput, reporting a runtime-error outcome when rendering fails. -/
def runWithService (service : Context → PackageURL → Except ServiceError PackageInfo)
    (purl : PackageURL) (verbose outputJSON : Bool) (writeOk : Bool) : RunResult :=
  let ctx : Context := { cancelled := false }
  match service ctx purl with
  | .error err =>
    if verbose then
      { exitCode := exitRuntimeError
        stderr := ["Error: Failed to get package info: " ++ err.message]
        stdout := [] }
    else
      { exitCode := exitRuntimeError
        stderr := ["Error: Failed to get package info", "Use -v flag for more details"]
        stdout := [] }
  | .ok info =>
    match printOutput info outputJSON writeOk with
    | (out, some printErr) =>
      { exitCode := exitRuntimeError, stderr := ["Error: " ++ printErr], stdout := out }
    | (out, none) =>
      { exitCode := exitSuccess, stderr := [], stdout := out }

/-! ## Claim theorems -/

/-- C1: For every HTTP response received by EcosystemsService.GetPackageInfo,
the status-code taxonomy is applied exactly: status 200 proceeds to payload
decoding; 404 fails with the NotFound category; 429 fails with the
RateLimited category; 502, 503 and 504 fail with the UpstreamUnavailable
category; and every other non-200 status fails with the generic
upstream-error category carrying the numeric status. -/
theorem c1_status_code_taxonomy (s : EcosystemsService) (ctx : Context) (purl : PackageURL)
    (resp : HttpResponse) :
    (resp.statusCode = 200 →
      (GetPackageInfo s ctx purl (fun _ => .ok resp)).2 = decodePayload purl resp.body) ∧
    (resp.statusCode = 404 →
      (GetPackageInfo s ctx purl (fun _ => .ok resp)).2
        = .error (.packageNotFound "HTTP 404")) ∧
    (resp.statusCode = 429 →
      (GetPackageInfo s ctx purl (fun _ => .ok resp)).2 = .error .rateLimited) ∧
    (resp.statusCode = 502 ∨ resp.statusCode = 503 ∨ resp.statusCode = 504 →
      (GetPackageInfo s ctx purl (fun _ => .ok resp)).2
        = .error (.serviceUnavailable resp.statusCode)) ∧
    (resp.statusCode ≠ 200 →
      resp.statusCode ∉ ([404, 429, 502, 503, 504] : List Nat) →
      (GetPackageInfo s ctx purl (fun _ => .ok resp)).2
        = .error (.apiError resp.statusCode)) := by
  obtain ⟨code, body⟩ := resp
  refine ⟨?_, ?_, ?_, ?_, ?_⟩
  · intro h; subst h; rfl
  · intro h; subst h; rfl
  · intro h; subst h; rfl
  · rintro (h | h | h) <;> subst h <;> rfl
  · intro h200 hmem
    simp only [List.mem_cons, List.not_mem_nil, or_false, not_or] at hmem
    obtain ⟨h404, h429, h502, h503, h504⟩ := hmem
    simp only [GetPackageInfo, interpretResponse]
    rw [if_pos h200, if_neg h404, if_neg h429, if_neg (by simp [h502, h503, h504])]

/-- Witness for C1: the taxonomy evaluated at responses with status 404,
429, 503 and 500. -/
theorem c1_status_code_taxonomy_witness :
    (GetPackageInfo (NewEcosystemsService "") ⟨false⟩ ⟨"npm", "pkg:npm/x@1.0.0"⟩
        (fun _ => .ok ⟨404, none⟩)).2 = .error (.packageNotFound "HTTP 404") ∧
    (GetPackageInfo (NewEcosystemsService "") ⟨false⟩ ⟨"npm", "pkg:npm/x@1.0.0"⟩
        (fun _ => .ok ⟨429, none⟩)).2 = .error .rateLimited ∧
    (GetPackageInfo (NewEcosystemsService "") ⟨false⟩ ⟨"npm", "pkg:npm/x@1.0.0"⟩
        (fun _ => .ok ⟨503, none⟩)).2 = .error (.serviceUnavailable 503) ∧
    (GetPackageInfo (NewEcosystemsService "") ⟨false⟩ ⟨"npm", "pkg:npm/x@1.0.0"⟩
        (fun _ => .ok ⟨500, none⟩)).2 = .error (.apiError 500) :=
  ⟨(c1_status_code_taxonomy (NewEcosystemsService "") ⟨false⟩ ⟨"npm", "pkg:npm/x@1.0.0"⟩
      ⟨404, none⟩).2.1 rfl,
   (c1_status_code_taxonomy (NewEcosystemsService "") ⟨false⟩ ⟨"npm", "pkg:npm/x@1.0.0"⟩
      ⟨429, none⟩).2.2.1 rfl,
   (c1_status_code_taxonomy (NewEcosystemsService "") ⟨false⟩ ⟨"npm", "pkg:npm/x@1.0.0"⟩
      ⟨503, none⟩).2.2.2.1 (Or.inr (Or.inl rfl)),
   (c1_status_code_taxonomy (NewEcosystemsService "") ⟨false⟩ ⟨"npm", "pkg:npm/x@1.0.0"⟩
      ⟨500, none⟩).2.2.2.2 (by decide) (by decide)⟩

/-- C2 counterexample: a 200 response whose body is the JSON value null is
not a JSON array, yet GetPackageInfo fails with the NotFound category, not
the InvalidResponse category: Go decodes null into the results slice as nil
without error, so the empty-result branch fires. -/
theorem c2_counterexample_null_body :
    isPackageNotFound (GetPackageInfo (NewEcosystemsService "") ⟨false⟩
        ⟨"npm", "pkg:npm/left-pad@1.3.0"⟩ (fun _ => .ok ⟨200, some Json.null⟩)).2 = true ∧
    isInvalidResponse (GetPackageInfo (NewEcosystemsService "") ⟨false⟩
        ⟨"npm", "pkg:npm/left-pad@1.3.0"⟩ (fun _ => .ok ⟨200, some Json.null⟩)).2 = false :=
  ⟨rfl, rfl⟩

/-- C2 (amended): for a 200 response, a malformed body or a JSON value that
is neither an array nor null fails with the InvalidResponse category; an
empty JSON array fails with the NotFound category (not InvalidResponse);
and a JSON null body, which Go decodes into the results slice as nil, also
fails with the NotFound category. -/
theorem c2_decode_failure_taxonomy (s : EcosystemsService) (ctx : Context) (purl : PackageURL)
    (body : Option Json) :
    (body = none →
      isInvalidResponse (GetPackageInfo s ctx purl (fun _ => .ok ⟨200, body⟩)).2 = true) ∧
    (∀ j, body = some j → (∀ elems, j ≠ Json.arr elems) → j ≠ Json.null →
      isInvalidResponse (GetPackageInfo s ctx purl (fun _ => .ok ⟨200, body⟩)).2 = true) ∧
    (body = some (Json.arr []) →
      isPackageNotFound (GetPackageInfo s ctx purl (fun _ => .ok ⟨200, body⟩)).2 = true ∧
      isInvalidResponse (GetPackageInfo s ctx purl (fun _ => .ok ⟨200, body⟩)).2 = false) ∧
    (body = some Json.null →
      isPackageNotFound (GetPackageInfo s ctx purl (fun _ => .ok ⟨200, body⟩)).2 = true ∧
      isInvalidResponse (GetPackageInfo s ctx purl (fun _ => .ok ⟨200, body⟩)).2 = false) := by
  refine ⟨?_, ?_, ?_, ?_⟩
  · intro h; subst h; rfl
  · intro j hb harr hnull
    subst hb
    cases j with
    | null => exact absurd rfl hnull
    | arr elems => exact absurd rfl (harr elems)
    | bool b => rfl
    | num n => rfl
    | str s => rfl
    | obj fields => rfl
  · intro h; subst h; exact ⟨rfl, rfl⟩
  · intro h; subst h; exact ⟨rfl, rfl⟩

/-- Witness for C2 (amended): the decode taxonomy evaluated at a malformed
body, a JSON object body, an empty-array body and a null body. -/
theorem c2_decode_failure_taxonomy_witness :
    isInvalidResponse (GetPackageInfo (NewEcosystemsService "") ⟨false⟩
        ⟨"npm", "pkg:npm/x@1.0.0"⟩ (fun _ => .ok ⟨200, none⟩)).2 = true ∧
    isInvalidResponse (GetPackageInfo (NewEcosystemsService "") ⟨false⟩
        ⟨"npm", "pkg:npm/x@1.0.0"⟩ (fun _ => .ok ⟨200, some (Json.obj [])⟩)).2 = true ∧
    isPackageNotFound (GetPackageInfo (NewEcosystemsService "") ⟨false⟩
        ⟨"npm", "pkg:npm/x@1.0.0"⟩ (fun _ => .ok ⟨200, some (Json.arr [])⟩)).2 = true ∧
    isPackageNotFound (GetPackageInfo (NewEcosystemsService "") ⟨false⟩
        ⟨"npm", "pkg:npm/x@1.0.0"⟩ (fun _ => .ok ⟨200, some Json.null⟩)).2 = true :=
  ⟨(c2_decode_failure_taxonomy (NewEcosystemsService "") ⟨false⟩ ⟨"npm", "pkg:npm/x@1.0.0"⟩
      none).1 rfl,
   (c2_decode_failure_taxonomy (NewEcosystemsService "") ⟨false⟩ ⟨"npm", "pkg:npm/x@1.0.0"⟩
      (some (Json.obj []))).2.1 (Json.obj []) rfl (fun _ h => Json.noConfusion h)
      (fun h => Json.noConfusion h),
   ((c2_decode_failure_taxonomy (NewEcosystemsService "") ⟨false⟩ ⟨"npm", "pkg:npm/x@1.0.0"⟩
      (some (Json.arr []))).2.2.1 rfl).1,
   ((c2_decode_failure_taxonomy (NewEcosystemsService "") ⟨false⟩ ⟨"npm", "pkg:npm/x@1.0.0"⟩
      (some Json.null)).2.2.2 rfl).1⟩

/-- The upstream success payload of the repository's own unit test named
success with licenses: one entry carrying name, latest release, licenses,
homepage, repository, description and documentation fields. -/
def lodashLookupJson : Json :=
  Json.arr [Json.obj
    [ ("name", Json.str "lodash")
    , ("latest_release_number", Json.str "4.17.21")
    , ("normalized_licenses", Json.arr [Json.str "MIT"])
    , ("homepage", Json.str "https://lodash.com/")
    , ("repository_url", Json.str "https://github.com/lodash/lodash")
    , ("description", Json.str "Lodash modular utilities.")
    , ("documentation_url", Json.str "https://lodash.com/docs") ]]

/-- C3 (code bug): on the unit-test payload for purl pkg:npm/lodash@4.17.21,
GetPackageInfo maps only name, latest_release_number and
normalized_licenses; the ecosystem stays the zero value (not the purl type
npm) and the optional upstream fields homepage, repository_url, description
and documentation_url are dropped (all none), contradicting the claim and
the repository's own unit and integration tests. -/
theorem c3_first_result_mapping_drops_fields :
    (GetPackageInfo (NewEcosystemsService "") ⟨false⟩ ⟨"npm", "pkg:npm/lodash@4.17.21"⟩
        (fun _ => .ok ⟨200, some lodashLookupJson⟩)).2
      = Except.ok { name := "lodash", version := "4.17.21", licenses := some ["MIT"]
                    homepage := none, repositoryURL := none, description := none
                    ecosystem := "", documentationURL := none } := rfl

/-- C5 counterexample: when the upstream entry omits normalized_licenses,
Go leaves the slice nil, GetPackageInfo copies that nil into Licenses, and
the resulting PackageInfo carries a null licenses container that also
serializes as JSON null - refuting the invariant that Licenses is always at
least an empty sequence. -/
theorem c5_counterexample_omitted_licenses :
    (GetPackageInfo (NewEcosystemsService "") ⟨false⟩ ⟨"npm", "pkg:npm/testpkg@1.0.0"⟩
        (fun _ => .ok ⟨200, some (Json.arr [Json.obj
          [("name", Json.str "testpkg"), ("latest_release_number", Json.str "1.0.0")]])⟩)).2
      = Except.ok { name := "testpkg", version := "1.0.0", licenses := none, homepage := none
                    repositoryURL := none, description := none, ecosystem := ""
                    documentationURL := none } ∧
    jsonObjGet (marshalPackageInfo
        { name := "testpkg", version := "1.0.0", licenses := none, homepage := none
          repositoryURL := none, description := none, ecosystem := ""
          documentationURL := none }) "licenses" = some Json.null :=
  ⟨rfl, rfl⟩

/-- C5 (amended): Licenses is copied verbatim from the first entry's
normalized_licenses slice: whenever upstream supplies the field as a JSON
array (possibly empty) it is a present, possibly empty sequence, but when
upstream omits the field or sends null it is the nil container; it is not
defaulted to an empty sequence. -/
theorem c5_licenses_copied_verbatim (s : EcosystemsService) (ctx : Context) (purl : PackageURL)
    (j : Json) (e : EcosystemsPackagesLookupResponse)
    (rest : List EcosystemsPackagesLookupResponse)
    (h : decodeLookupResults j = Except.ok (e :: rest)) :
    (GetPackageInfo s ctx purl (fun _ => .ok ⟨200, some j⟩)).2
      = Except.ok { name := e.name, version := e.latestReleaseNumber
                    licenses := e.normalizedLicenses, homepage := none, repositoryURL := none
                    description := none, ecosystem := "", documentationURL := none } ∧
    (∀ fields, lookupField fields "normalized_licenses" = none →
      decodeGoStringSlice fields "normalized_licenses" = Except.ok none) ∧
    (∀ fields, lookupField fields "normalized_licenses" = some Json.null →
      decodeGoStringSlice fields "normalized_licenses" = Except.ok none) ∧
    (∀ fields, lookupField fields "normalized_licenses" = some (Json.arr []) →
      decodeGoStringSlice fields "normalized_licenses" = Except.ok (some [])) := by
  refine ⟨?_, ?_, ?_, ?_⟩
  · simp [GetPackageInfo, interpretResponse, decodePayload, h]
  · intro fields hf; simp [decodeGoStringSlice, hf]
  · intro fields hf; simp [decodeGoStringSlice, hf]
  · intro fields hf; simp [decodeGoStringSlice, hf, decodeGoStringList, Except.map]

/-- Witness for C5 (amended): evaluated at a one-entry payload whose entry
omits normalized_licenses, and at concrete field lists for the three
decode shapes. -/
theorem c5_licenses_copied_verbatim_witness :
    (GetPackageInfo (NewEcosystemsService "") ⟨false⟩ ⟨"npm", "pkg:npm/testpkg@1.0.0"⟩
        (fun _ => .ok ⟨200, some (Json.arr [Json.obj [("name", Json.str "testpkg")]])⟩)).2
      = Except.ok { name := "testpkg", version := "", licenses := none, homepage := none
                    repositoryURL := none, description := none, ecosystem := ""
                    documentationURL := none } ∧
    decodeGoStringSlice [("name", Json.str "testpkg")] "normalized_licenses"
      = Except.ok none ∧
    decodeGoStringSlice [("normalized_licenses", Json.null)] "normalized_licenses"
      = Except.ok none ∧
    decodeGoStringSlice [("normalized_licenses", Json.arr [])] "normalized_licenses"
      = Except.ok (some []) :=
  ⟨(c5_licenses_copied_verbatim (NewEcosystemsService "") ⟨false⟩ ⟨"npm", "pkg:npm/testpkg@1.0.0"⟩
      (Json.arr [Json.obj [("name", Json.str "testpkg")]])
      { name := "testpkg", latestReleaseNumber := "", normalizedLicenses := none } [] rfl).1,
   (c5_licenses_copied_verbatim (NewEcosystemsService "") ⟨false⟩ ⟨"npm", "pkg:npm/testpkg@1.0.0"⟩
      (Json.arr [Json.obj [("name", Json.str "testpkg")]])
      { name := "testpkg", latestReleaseNumber := "", normalizedLicenses := none } [] rfl).2.1
      [("name", Json.str "testpkg")] rfl,
   (c5_licenses_copied_verbatim (NewEcosystemsService "") ⟨false⟩ ⟨"npm", "pkg:npm/testpkg@1.0.0"⟩
      (Json.arr [Json.obj [("name", Json.str "testpkg")]])
      { name := "testpkg", latestReleaseNumber := "", normalizedLicenses := none } [] rfl).2.2.1
      [("normalized_licenses", Json.null)] rfl,
   (c5_licenses_copied_verbatim (NewEcosystemsService "") ⟨false⟩ ⟨"npm", "pkg:npm/testpkg@1.0.0"⟩
      (Json.arr [Json.obj [("name", Json.str "testpkg")]])
      { name := "testpkg", latestReleaseNumber := "", normalizedLicenses := none } [] rfl).2.2.2
      [("normalized_licenses", Json.arr [])] rfl⟩

theorem decodeGoStringList_map_str (l : List String) :
    decodeGoStringList (l.map Json.str) = Except.ok l := by
  induction l with
  | nil => rfl
  | cons x xs ih => simp [decodeGoStringList, decodeGoStringElem, ih, bind, Except.bind]

/-- C4: each of the four optional PackageInfo fields represents absence as a
first-class value distinct from the empty string (absence encodes as JSON
null, a present value - even the empty string - encodes as a JSON string),
and encoding a PackageInfo in structured mode then decoding it back yields
field-for-field equality, with absent optional fields remaining absent. -/
theorem c4_optional_fields_roundtrip (info : PackageInfo) :
    unmarshalPackageInfo (marshalPackageInfo info) = Except.ok info ∧
    (info.homepage = none →
      jsonObjGet (marshalPackageInfo info) "homepage" = some Json.null) ∧
    (info.repositoryURL = none →
      jsonObjGet (marshalPackageInfo info) "repository_url" = some Json.null) ∧
    (info.description = none →
      jsonObjGet (marshalPackageInfo info) "description" = some Json.null) ∧
    (info.documentationURL = none →
      jsonObjGet (marshalPackageInfo info) "documentation_url" = some Json.null) ∧
    (∀ v, info.homepage = some v →
      jsonObjGet (marshalPackageInfo info) "homepage" = some (Json.str v)) ∧
    (∀ v, info.repositoryURL = some v →
      jsonObjGet (marshalPackageInfo info) "repository_url" = some (Json.str v)) ∧
    (∀ v, info.description = some v →
      jsonObjGet (marshalPackageInfo info) "description" = some (Json.str v)) ∧
    (∀ v, info.documentationURL = some v →
      jsonObjGet (marshalPackageInfo info) "documentation_url" = some (Json.str v)) := by
  refine ⟨?_, ?_, ?_, ?_, ?_, ?_, ?_, ?_, ?_⟩
  · obtain ⟨n, v, l, h, r, d, e, du⟩ := info
    cases l <;> cases h <;> cases r <;> cases d <;> cases du <;>
      simp [marshalPackageInfo, unmarshalPackageInfo, decodeGoString, decodeGoOptString,
        decodeGoStringSlice, encodeOptString, encodeLicenses, lookupField, bind, Except.bind,
        decodeGoStringList_map_str, Except.map]
  all_goals
    first
    | (intro h
       simp [marshalPackageInfo, jsonObjGet, lookupField, encodeOptString, h])
    | (intro v h
       simp [marshalPackageInfo, jsonObjGet, lookupField, encodeOptString, h])

/-- The concrete PackageInfo at which the C4 witness evaluates the round
trip: homepage absent, repository present but empty, description present. -/
def c4SampleInfo : PackageInfo :=
  { name := "lodash", version := "4.17.21", licenses := some ["MIT"], homepage := none
    repositoryURL := some "", description := some "Lodash modular utilities."
    ecosystem := "npm", documentationURL := none }

/-- Witness for C4: the round trip and the null-versus-string encodings at
a concrete PackageInfo with mixed absent, empty and present optionals. -/
theorem c4_optional_fields_roundtrip_witness :
    unmarshalPackageInfo (marshalPackageInfo c4SampleInfo) = Except.ok c4SampleInfo ∧
    jsonObjGet (marshalPackageInfo c4SampleInfo) "homepage" = some Json.null ∧
    jsonObjGet (marshalPackageInfo c4SampleInfo) "repository_url" = some (Json.str "") ∧
    jsonObjGet (marshalPackageInfo c4SampleInfo) "documentation_url" = some Json.null :=
  ⟨(c4_optional_fields_roundtrip c4SampleInfo).1,
   (c4_optional_fields_roundtrip c4SampleInfo).2.1 rfl,
   (c4_optional_fields_roundtrip c4SampleInfo).2.2.2.2.2.2.1 "" rfl,
   (c4_optional_fields_roundtrip c4SampleInfo).2.2.2.2.1 rfl⟩

/-- C6: for every resolver error, runWithService reports the runtime-error
outcome and writes the diagnostic to the error channel: with verbosity the
single line carries the full underlying error text, without it the output
is the fixed generic message plus the fixed hint to enable verbosity,
independent of the error - never the other behavior. -/
theorem c6_failure_diagnostics (err : ServiceError) (purl : PackageURL)
    (verbose outputJSON writeOk : Bool) :
    (runWithService (fun _ _ => .error err) purl verbose outputJSON writeOk).exitCode
      = exitRuntimeError ∧
    (verbose = true →
      (runWithService (fun _ _ => .error err) purl verbose outputJSON writeOk).stderr
        = ["Error: Failed to get package info: " ++ err.message]) ∧
    (verbose = false →
      (runWithService (fun _ _ => .error err) purl verbose outputJSON writeOk).stderr
        = ["Error: Failed to get package info", "Use -v flag for more details"]) := by
  cases verbose with
  | false => exact ⟨rfl, fun h => Bool.noConfusion h, fun _ => rfl⟩
  | true => exact ⟨rfl, fun _ => rfl, fun h => Bool.noConfusion h⟩

/-- Witness for C6: the diagnostics of a resolver double failing with the
NotFound error, in verbose and in default mode. -/
theorem c6_failure_diagnostics_witness :
    (runWithService (fun _ _ => .error (.packageNotFound "HTTP 404"))
        ⟨"npm", "pkg:npm/x@1.0.0"⟩ true false true).stderr
      = ["Error: Failed to get package info: package not found: HTTP 404"] ∧
    (runWithService (fun _ _ => .error (.packageNotFound "HTTP 404"))
        ⟨"npm", "pkg:npm/x@1.0.0"⟩ false false true).stderr
      = ["Error: Failed to get package info", "Use -v flag for more details"] ∧
    (runWithService (fun _ _ => .error (.packageNotFound "HTTP 404"))
        ⟨"npm", "pkg:npm/x@1.0.0"⟩ false false true).exitCode = exitRuntimeError :=
  ⟨(c6_failure_diagnostics (.packageNotFound "HTTP 404") ⟨"npm", "pkg:npm/x@1.0.0"⟩
      true false true).2.1 rfl,
   (c6_failure_diagnostics (.packageNotFound "HTTP 404") ⟨"npm", "pkg:npm/x@1.0.0"⟩
      false false true).2.2 rfl,
   (c6_failure_diagnostics (.packageNotFound "HTTP 404") ⟨"npm", "pkg:npm/x@1.0.0"⟩
      false false true).1⟩

/-- C7: for every purl, GetPackageInfo issues exactly one outbound request:
a GET to the base address plus /api/v1/packages/lookup, with the single
query parameter purl set to the query-escaped canonical purl string, bound
to the caller's context (and carrying no identification header). -/
theorem c7_request_construction (s : EcosystemsService) (ctx : Context) (purl : PackageURL)
    (transport : HttpRequest → Except String HttpResponse) :
    (GetPackageInfo s ctx purl transport).1
      = [{ method := httpMethodGet
           url := s.baseURL ++ ecosystemsAPIPath ++ "?purl=" ++ queryEscape purl.canonical
           ctx := ctx
           identificationHeader := none }] ∧
    httpMethodGet = "GET" ∧
    ecosystemsAPIPath = "/api/v1/packages/lookup" :=
  ⟨rfl, rfl, rfl⟩

/-- C8 (spec-modelled): the contact-configured resolver sends the
identification header purlinfo/version (mailto:contact) on its one outbound
request exactly when a contact string is configured, and no such header
otherwise. -/
theorem c8_identification_header (s : EcosystemsService) (contact : String) (ctx : Context)
    (purl : PackageURL) (transport : HttpRequest → Except String HttpResponse) :
    (GetPackageInfoWithContact s contact ctx purl transport).1.map
        HttpRequest.identificationHeader
      = [identificationHeaderValue contact] ∧
    (contact ≠ "" →
      identificationHeaderValue contact
        = some ("purlinfo/" ++ cliVersion ++ " (mailto:" ++ contact ++ ")")) ∧
    (contact = "" → identificationHeaderValue contact = none) := by
  refine ⟨rfl, ?_, ?_⟩
  · intro h; simp [identificationHeaderValue, h]
  · intro h; simp [identificationHeaderValue, h]

/-- Witness for C8: the header at a configured contact and at the empty
contact, on the one request of a concrete resolution. -/
theorem c8_identification_header_witness :
    (GetPackageInfoWithContact (NewEcosystemsService "") "dev@example.com" ⟨false⟩
        ⟨"npm", "pkg:npm/x@1.0.0"⟩ (fun _ => .error "unreachable")).1.map
        HttpRequest.identificationHeader
      = [identificationHeaderValue "dev@example.com"] ∧
    identificationHeaderValue "dev@example.com"
      = some ("purlinfo/" ++ cliVersion ++ " (mailto:" ++ "dev@example.com" ++ ")") ∧
    identificationHeaderValue "" = none :=
  ⟨(c8_identification_header (NewEcosystemsService "") "dev@example.com" ⟨false⟩
      ⟨"npm", "pkg:npm/x@1.0.0"⟩ (fun _ => .error "unreachable")).1,
   (c8_identification_header (NewEcosystemsService "") "dev@example.com" ⟨false⟩
      ⟨"npm", "pkg:npm/x@1.0.0"⟩ (fun _ => .error "unreachable")).2.1 (by decide),
   (c8_identification_header (NewEcosystemsService "") "" ⟨false⟩
      ⟨"npm", "pkg:npm/x@1.0.0"⟩ (fun _ => .error "unreachable")).2.2 rfl⟩

/-! ## Spec-side rendering vocabulary for the human-readable mode

These definitions follow the spec's words (fixed label column wide enough
for the longest label, value or the literal text none) and are compared
against the source-derived rendering functions. -/

/-- Spec-side: a label padded with spaces to the width of the longest
label, DocumentationURL: . -/
def specPaddedLabel (label : String) : String :=
  label ++ spaces ("DocumentationURL:".length - label.length)

/-- Spec-side: an optional field renders its value when present and
non-empty, the literal text (none) when absent or empty. -/
def specOptionalText : Option String → String
  | some v => if v != "" then v else "(none)"
  | none => "(none)"

/-- Spec-side: the licenses value, comma-joined when non-empty, the literal
text (none) when empty (or nil). -/
def specLicensesText : Option (List String) → String
  | some (x :: xs) => stringsJoin ", " (x :: xs)
  | some [] => "(none)"
  | none => "(none)"

theorem printLicenses_eq_spec (licenses : Option (List String)) :
    printLicenses licenses = specPaddedLabel "Licenses:" ++ specLicensesText licenses := by
  have hpad : specPaddedLabel "Licenses:" = "Licenses:        " := by decide
  cases licenses with
  | none => rw [hpad]; rfl
  | some l =>
    cases l with
    | nil => rw [hpad]; rfl
    | cons x xs =>
      rw [hpad]
      simp [printLicenses, goSliceLen, specLicensesText]

theorem printOptionalField_eq_spec (label : String) (value : Option String) :
    printOptionalField label value = specPaddedLabel label ++ specOptionalText value := by
  have hw : ("DocumentationURL:".length : Nat) = labelColumnWidth := by decide
  cases value with
  | none => simp [printOptionalField, specPaddedLabel, specOptionalText, hw, String.append_assoc]
  | some v =>
    by_cases hv : v = ""
    · subst hv
      simp [printOptionalField, specPaddedLabel, specOptionalText, hw, String.append_assoc]
    · simp [printOptionalField, specPaddedLabel, specOptionalText, hw, hv, String.append_assoc]

/-- C9: human-readable rendering writes each line as a label padded to the
fixed column width of the longest label DocumentationURL:, followed by the
value; the licenses line carries the comma-joined list when non-empty and
the literal text (none) when empty; each optional field line carries its
value when present and non-empty and the literal text (none) when absent or
empty. -/
theorem c9_human_readable_layout (info : PackageInfo) :
    (printHumanReadableOutput info).1
      = [ specPaddedLabel "Name:" ++ info.name
        , specPaddedLabel "Version:" ++ info.version
        , specPaddedLabel "Ecosystem:" ++ info.ecosystem
        , specPaddedLabel "Licenses:" ++ specLicensesText info.licenses
        , specPaddedLabel "Description:" ++ specOptionalText info.description
        , specPaddedLabel "Homepage:" ++ specOptionalText info.homepage
        , specPaddedLabel "RepositoryURL:" ++ specOptionalText info.repositoryURL
        , specPaddedLabel "DocumentationURL:" ++ specOptionalText info.documentationURL ] ∧
    (∀ label ∈ (["Name:", "Version:", "Ecosystem:", "Licenses:", "Description:",
                 "Homepage:", "RepositoryURL:", "DocumentationURL:"] : List String),
      (specPaddedLabel label).length = "DocumentationURL:".length) := by
  constructor
  · have hn : specPaddedLabel "Name:" = "Name:            " := by decide
    have hv : specPaddedLabel "Version:" = "Version:         " := by decide
    have he : specPaddedLabel "Ecosystem:" = "Ecosystem:       " := by decide
    simp only [printHumanReadableOutput, printOptionalField_eq_spec, printLicenses_eq_spec,
      hn, hv, he]
  · decide

/-- Witness for C9: the rendered lines of a PackageInfo with no licenses, an
empty homepage and an absent documentation link. -/
theorem c9_human_readable_layout_witness :
    (printHumanReadableOutput
        { name := "testpkg", version := "1.0.0", licenses := some [], homepage := some ""
          repositoryURL := some "https://r.example", description := none, ecosystem := "npm"
          documentationURL := none }).1
      = [ "Name:            testpkg"
        , "Version:         1.0.0"
        , "Ecosystem:       npm"
        , "Licenses:        (none)"
        , "Description:     (none)"
        , "Homepage:        (none)"
        , "RepositoryURL:   https://r.example"
        , "DocumentationURL:(none)" ] ∧
    (specPaddedLabel "Licenses:").length = "DocumentationURL:".length :=
  ⟨(c9_human_readable_layout
      { name := "testpkg", version := "1.0.0", licenses := some [], homepage := some ""
        repositoryURL := some "https://r.example", description := none, ecosystem := "npm"
        documentationURL := none }).1,
   (c9_human_readable_layout
      { name := "testpkg", version := "1.0.0", licenses := some [], homepage := some ""
        repositoryURL := some "https://r.example", description := none, ecosystem := "npm"
        documentationURL := none }).2 "Licenses:" (by decide)⟩

/-- C10: printHumanReadableOutput returns the nil error for every
PackageInfo, printOutput in human-readable mode therefore returns the nil
error, and runWithService after a successful resolution in human-readable
mode always reports the success outcome - the rendering-failure branch is
unreachable there. -/
theorem c10_human_mode_always_succeeds (info : PackageInfo) (purl : PackageURL)
    (verbose writeOk : Bool) :
    (printHumanReadableOutput info).2 = none ∧
    (printOutput info false writeOk).2 = none ∧
    (runWithService (fun _ _ => .ok info) purl verbose false writeOk).exitCode = exitSuccess :=
  ⟨rfl, rfl, rfl⟩
